import Mathlib

/-!
Shallow embedding of the backend-selection routing gateway
(`api/gateway`: `createRegistry`, `proxyRequest` and the Hono route
handlers `GET /health`, `GET /backends`, `app.all('*')`).

The JavaScript runtime effects are made explicit:
* the outcome of the single outbound `fetch` is an oracle parameter
  (`FetchOutcome`), so the router becomes a pure function of the
  environment, the inbound request, the clock reading and that oracle;
* `Date.toISOString()` is the uninterpreted string parameter `now`;
* response bodies produced through `c.json`/`JSON.stringify` are
  rendered to strings with the same key order as the source objects.

JavaScript string truthiness (`s || d` yields `d` exactly when `s` is
absent or the empty string) is modelled by `jsOr`.
-/

namespace Gateway

/-- JSON string escaping for the characters `JSON.stringify` escapes in
the bodies this router builds (quote, backslash, common control chars). -/
def jsonEscapeChar (c : Char) : String :=
  if c = '\\' then "\\\\"
  else if c = '"' then "\\\""
  else if c = '\n' then "\\n"
  else if c = '\r' then "\\r"
  else if c = '\t' then "\\t"
  else String.singleton c

def jsonEscape (s : String) : String :=
  String.join (s.data.map jsonEscapeChar)

def jsonStr (s : String) : String :=
  "\"" ++ jsonEscape s ++ "\""

/-- Boolean substring test: `pat` occurs contiguously in `s`. -/
def strContains (s pat : String) : Bool :=
  decide (pat.data <:+: s.data)

/-- JavaScript `a || d` on an optional string: the default is taken when
the value is absent or empty (empty strings are falsy). -/
def jsOr (a : Option String) (d : String) : String :=
  match a with
  | some v => if v = "" then d else v
  | none => d

/-- The `Env` bindings of the worker: `ENVIRONMENT`,
`BACKEND_HONO_D1_URL`, and the optional `BACKEND_BUN_SQLITE_URL`. -/
structure Env where
  ENVIRONMENT : String
  BACKEND_HONO_D1_URL : String
  BACKEND_BUN_SQLITE_URL : Option String
deriving DecidableEq, Repr

/-- The `Backend` descriptor interface. -/
structure Backend where
  id : String
  name : String
  url : String
  type : String
  healthEndpoint : String
deriving DecidableEq, Repr

def defaultHonoD1Url : String := "https://hono-d1-backend.salalite.workers.dev"

/-- Model of `createRegistry`: the registry as the insertion-ordered list backing
the source's `Map`.  `hono-d1` is always inserted, its URL falling back
to a hardcoded one when `BACKEND_HONO_D1_URL` is empty; `bun-sqlite` is
inserted only when `BACKEND_BUN_SQLITE_URL` is present and non-empty. -/
def createRegistry (env : Env) : List Backend :=
  let backendUrl :=
    if env.BACKEND_HONO_D1_URL = "" then defaultHonoD1Url else env.BACKEND_HONO_D1_URL
  let base : List Backend :=
    [{ id := "hono-d1", name := "Hono + D1 (Cloud)", url := backendUrl,
       type := "cloud", healthEndpoint := "/health" }]
  match env.BACKEND_BUN_SQLITE_URL with
  | some u =>
      if u = "" then base
      else
        base ++ [{ id := "bun-sqlite", name := "Bun + SQLite (Local)", url := u,
                   type := "local", healthEndpoint := "/health" }]
  | none => base

/-- Lookup `registry.getBackend(id)`: exact match, `null` when absent. -/
def getBackend (reg : List Backend) (i : String) : Option Backend :=
  reg.find? (fun b => b.id == i)

/-- Listing `registry.listBackends()`: all descriptors in insertion order. -/
def listBackends (reg : List Backend) : List Backend := reg

/-- An inbound HTTP request: method, `url.pathname`, `url.search`
(with its leading question mark when non-empty), headers as a list of
lowercase-name/value pairs, and the optional body. -/
structure Request where
  method : String
  pathname : String
  search : String
  headers : List (String × String)
  body : Option String
deriving DecidableEq, Repr

/-- Read `headers.get(nm)`: first value under the (lowercase) name, else null. -/
def headerGet (hs : List (String × String)) (nm : String) : Option String :=
  (hs.find? (fun p => p.fst == nm)).map Prod.snd

/-- The single outbound `fetch` issued by `proxyRequest`, including the
timeout its `AbortSignal` carries. -/
structure OutboundRequest where
  url : String
  method : String
  headers : List (String × String)
  body : Option String
  timeoutMs : Nat
deriving DecidableEq, Repr

def targetUrl (b : Backend) (req : Request) : String :=
  b.url ++ req.pathname ++ req.search

/-- The outbound header object built in `proxyRequest`: fixed
`Content-Type`/`Accept`, `x-forwarded-for` from `cf-connecting-ip`
(or `unknown`), `x-gateway-version`, and `x-backend` copied only when
the inbound header is present and truthy (non-empty). -/
def outboundHeaders (req : Request) : List (String × String) :=
  let base : List (String × String) :=
    [("Content-Type", "application/json"),
     ("Accept", "application/json"),
     ("x-forwarded-for", jsOr (headerGet req.headers "cf-connecting-ip") "unknown"),
     ("x-gateway-version", "1.0.0")]
  match headerGet req.headers "x-backend" with
  | some v => if v = "" then base else base ++ [("x-backend", v)]
  | none => base

/-- The body passed to fetch: omitted for GET and HEAD, the inbound
body otherwise. -/
def requestBody (req : Request) : Option String :=
  if req.method = "GET" ∨ req.method = "HEAD" then none else req.body

/-- The outbound request `proxyRequest` passes to `fetch`; the default
`timeout = 30000` is used at the only call site. -/
def buildOutbound (req : Request) (b : Backend) : OutboundRequest :=
  { url := targetUrl b req, method := req.method, headers := outboundHeaders req,
    body := requestBody req, timeoutMs := 30000 }

/-- Outcome of the outbound `fetch`: a response (status, statusText and
its text body), or a thrown network-level error with its message. -/
inductive FetchOutcome where
  | success (status : Nat) (statusText : String) (text : String)
  | failure (message : String)
deriving DecidableEq, Repr

/-- An HTTP response produced by the router. -/
structure Response where
  status : Nat
  statusText : String
  headers : List (String × String)
  body : Option String
deriving DecidableEq, Repr

/-- The fixed CORS header set `proxyRequest` installs on relayed
upstream responses. -/
def corsHeaderList : List (String × String) :=
  [("Access-Control-Allow-Origin", "*"),
   ("Access-Control-Allow-Methods", "GET, POST, PUT, PATCH, DELETE, OPTIONS"),
   ("Access-Control-Allow-Headers", "Content-Type, x-backend, x-backend-location")]

def backendUnavailableBody (message : String) : String :=
  "\x7b\"error\":\"Backend unavailable\",\"message\":" ++ jsonStr message ++ "\x7d"

/-- The response `proxyRequest` returns: on fetch success, the upstream
status/statusText with the text body and the fixed CORS headers; on a
thrown network error, a 503 JSON body naming the failure. -/
def proxyResponse (outcome : FetchOutcome) : Response :=
  match outcome with
  | .success status statusText text =>
      { status := status, statusText := statusText,
        headers := corsHeaderList, body := some text }
  | .failure message =>
      { status := 503, statusText := "",
        headers := [("Content-Type", "application/json")],
        body := some (backendUnavailableBody message) }

/-- Response builder `c.json(obj, status)`: a JSON content-type response with the
serialized body. -/
def jsonResponse (status : Nat) (body : String) : Response :=
  { status := status, statusText := "",
    headers := [("Content-Type", "application/json")], body := some body }

/-- Body of `GET /health`: `JSON.stringify` of the object literal, with
`timestamp` the uninterpreted clock reading and `environment` falling back to
the local marker when `ENVIRONMENT` is absent or empty. -/
def healthBody (env : Env) (now : String) : String :=
  "\x7b\"status\":\"ok\",\"timestamp\":" ++ jsonStr now ++
    ",\"environment\":" ++ jsonStr (jsOr (some env.ENVIRONMENT) "local") ++ "\x7d"

/-- Serialization of one `Backend` as `JSON.stringify` renders it, in the source's key order. -/
def serializeBackend (b : Backend) : String :=
  "\x7b\"id\":" ++ jsonStr b.id ++ ",\"name\":" ++ jsonStr b.name ++
    ",\"url\":" ++ jsonStr b.url ++ ",\"type\":" ++ jsonStr b.type ++
    ",\"healthEndpoint\":" ++ jsonStr b.healthEndpoint ++ "\x7d"

def serializeArray (items : List String) : String :=
  "[" ++ String.intercalate "," items ++ "]"

/-- Body of `GET /backends`. -/
def backendsBody (reg : List Backend) : String :=
  "\x7b\"backends\":" ++ serializeArray ((listBackends reg).map serializeBackend) ++ "\x7d"

/-- Body of the 400 unknown-backend rejection: the fixed error text and
the ids of all registered backends. -/
def unknownBackendBody (reg : List Backend) : String :=
  "\x7b\"error\":\"Unknown backend\",\"available\":" ++
    serializeArray (((listBackends reg).map Backend.id).map jsonStr) ++ "\x7d"

/-- The four exit points of the app: the two informational routes, the
400 rejection, and the proxied path (which records the one outbound
request it issues). -/
inductive Outcome where
  | health (resp : Response)
  | backends (resp : Response)
  | unknownBackend (resp : Response)
  | proxied (out : OutboundRequest) (resp : Response)
deriving DecidableEq, Repr

def Outcome.response : Outcome → Response
  | .health r => r
  | .backends r => r
  | .unknownBackend r => r
  | .proxied _ r => r

/-- The outbound network call the outcome issued, if any; every branch
issues at most one. -/
def Outcome.outbound : Outcome → Option OutboundRequest
  | .proxied o _ => some o
  | _ => none

/-- The route dispatch of the app: `GET /health`, `GET /backends`, then
the catch-all `app.all('*')` which builds the registry per request,
resolves the x-backend header (defaulting to hono-d1 when absent or
empty), rejects unknown ids with 400, and otherwise proxies. -/
def route (env : Env) (req : Request) (now : String) (oracle : FetchOutcome) : Outcome :=
  if req.method = "GET" ∧ req.pathname = "/health" then
    .health (jsonResponse 200 (healthBody env now))
  else if req.method = "GET" ∧ req.pathname = "/backends" then
    .backends (jsonResponse 200 (backendsBody (createRegistry env)))
  else
    let registry := createRegistry env
    let backendId := jsOr (headerGet req.headers "x-backend") "hono-d1"
    match getBackend registry backendId with
    | none => .unknownBackend (jsonResponse 400 (unknownBackendBody registry))
    | some b => .proxied (buildOutbound req b) (proxyResponse oracle)

/-- The same dispatch against a registry constructed once and passed in,
as the spec's lifecycle section describes it. -/
def routeOnce (reg : List Backend) (env : Env) (req : Request) (now : String)
    (oracle : FetchOutcome) : Outcome :=
  if req.method = "GET" ∧ req.pathname = "/health" then
    .health (jsonResponse 200 (healthBody env now))
  else if req.method = "GET" ∧ req.pathname = "/backends" then
    .backends (jsonResponse 200 (backendsBody reg))
  else
    let backendId := jsOr (headerGet req.headers "x-backend") "hono-d1"
    match getBackend reg backendId with
    | none => .unknownBackend (jsonResponse 400 (unknownBackendBody reg))
    | some b => .proxied (buildOutbound req b) (proxyResponse oracle)

/-- Setter `headers.set(nm, v)`: header maps are observed only through
`headerGet`, which returns the first match, so setting is modelled by
prepending the pair — any earlier pair of the same name is shadowed. -/
def setHeader (hs : List (String × String)) (nm v : String) : List (String × String) :=
  (nm, v) :: hs

/-- Modelled from the spec: the `hono/cors` middleware registered by
`app.use('*', cors(...))` — its implementation is library code not
present in this repository.  Per the spec, every response from the
router carries the fixed CORS header set, so the middleware is modelled
as setting the three configured headers on every response. -/
def applyCors (r : Response) : Response :=
  let h1 := setHeader r.headers "Access-Control-Allow-Origin" "*"
  let h2 := setHeader h1 "Access-Control-Allow-Methods" "GET, POST, PUT, PATCH, DELETE, OPTIONS"
  let h3 := setHeader h2 "Access-Control-Allow-Headers" "Content-Type, x-backend, x-backend-location"
  { r with headers := h3 }

/-- The response the caller receives: the handler's response after the
CORS middleware. -/
def appResponse (env : Env) (req : Request) (now : String) (oracle : FetchOutcome) : Response :=
  applyCors (route env req now oracle).response

/-- The outbound call, if any, that serving the request issued. -/
def appOutbound (env : Env) (req : Request) (now : String)
    (oracle : FetchOutcome) : Option OutboundRequest :=
  (route env req now oracle).outbound

/-- Whether `BACKEND_BUN_SQLITE_URL` is present and non-empty. -/
def bunConfigured (env : Env) : Bool :=
  match env.BACKEND_BUN_SQLITE_URL with
  | some u => u ≠ ""
  | none => false

/-- The `hono-d1` descriptor as `createRegistry` builds it. -/
def honoD1Backend (env : Env) : Backend :=
  { id := "hono-d1", name := "Hono + D1 (Cloud)",
    url := if env.BACKEND_HONO_D1_URL = "" then defaultHonoD1Url else env.BACKEND_HONO_D1_URL,
    type := "cloud", healthEndpoint := "/health" }

theorem getBackend_honoD1 (env : Env) :
    getBackend (createRegistry env) "hono-d1" = some (honoD1Backend env) := by
  cases henv : env.BACKEND_BUN_SQLITE_URL with
  | none => simp [createRegistry, getBackend, honoD1Backend, henv]
  | some u =>
      by_cases hu : u = "" <;>
        simp [createRegistry, getBackend, honoD1Backend, henv, hu]

theorem getBackend_empty_id (env : Env) : getBackend (createRegistry env) "" = none := by
  cases henv : env.BACKEND_BUN_SQLITE_URL with
  | none => simp [createRegistry, getBackend, henv]
  | some u =>
      by_cases hu : u = "" <;> simp [createRegistry, getBackend, henv, hu]

theorem route_catchall (env : Env) (req : Request) (now : String) (oracle : FetchOutcome)
    (h1 : ¬(req.method = "GET" ∧ req.pathname = "/health"))
    (h2 : ¬(req.method = "GET" ∧ req.pathname = "/backends")) :
    route env req now oracle =
      match getBackend (createRegistry env) (jsOr (headerGet req.headers "x-backend") "hono-d1") with
      | none => Outcome.unknownBackend (jsonResponse 400 (unknownBackendBody (createRegistry env)))
      | some b => Outcome.proxied (buildOutbound req b) (proxyResponse oracle) := by
  simp only [route, if_neg h1, if_neg h2]

/-- Claim C1: a request whose path is neither of the informational
routes and whose x-backend header carries a registered id is forwarded
exactly once, to the backend url concatenated with the inbound path and
query verbatim, with the inbound method, and with the inbound body for
every method other than GET and HEAD (for which the body is omitted). -/
theorem routing_correctness (env : Env) (req : Request) (now : String)
    (oracle : FetchOutcome) (B : String) (b : Backend)
    (hp1 : req.pathname ≠ "/health") (hp2 : req.pathname ≠ "/backends")
    (hh : headerGet req.headers "x-backend" = some B)
    (hb : getBackend (createRegistry env) B = some b) :
    (route env req now oracle).outbound = some (buildOutbound req b) ∧
    (buildOutbound req b).url = b.url ++ req.pathname ++ req.search ∧
    (buildOutbound req b).method = req.method ∧
    (req.method ≠ "GET" → req.method ≠ "HEAD" → (buildOutbound req b).body = req.body) ∧
    ((req.method = "GET" ∨ req.method = "HEAD") → (buildOutbound req b).body = none) := by
  have hB : B ≠ "" := by
    intro h
    rw [h, getBackend_empty_id] at hb
    exact Option.noConfusion hb
  have h1 : ¬(req.method = "GET" ∧ req.pathname = "/health") := fun h => hp1 h.2
  have h2 : ¬(req.method = "GET" ∧ req.pathname = "/backends") := fun h => hp2 h.2
  have hjs : jsOr (headerGet req.headers "x-backend") "hono-d1" = B := by
    rw [hh]; simp [jsOr, hB]
  refine ⟨?_, rfl, rfl, ?_, ?_⟩
  · rw [route_catchall env req now oracle h1 h2, hjs, hb]
    rfl
  · intro hg hhd
    simp [buildOutbound, requestBody, hg, hhd]
  · intro hor
    simp [buildOutbound, requestBody, hor]

/-- Witness for C1 at a concrete registry, request and upstream reply. -/
theorem routing_correctness_witness :
    (route ⟨"local", "http://up1", some "http://up2"⟩
        ⟨"POST", "/tasks", "", [("x-backend", "bun-sqlite")], some "tb"⟩
        "now" (.success 201 "Created" "ok")).outbound =
      some (buildOutbound
        ⟨"POST", "/tasks", "", [("x-backend", "bun-sqlite")], some "tb"⟩
        ⟨"bun-sqlite", "Bun + SQLite (Local)", "http://up2", "local", "/health"⟩) :=
  (routing_correctness ⟨"local", "http://up1", some "http://up2"⟩
    ⟨"POST", "/tasks", "", [("x-backend", "bun-sqlite")], some "tb"⟩
    "now" (.success 201 "Created" "ok") "bun-sqlite"
    ⟨"bun-sqlite", "Bun + SQLite (Local)", "http://up2", "local", "/health"⟩
    (by decide) (by decide) (by decide) (by decide)).1

theorem strContains_iff (s p : String) : strContains s p = true ↔ p.data <:+: s.data := by
  simp [strContains]

theorem strContains_append_left (a b p : String) (h : strContains a p = true) :
    strContains (a ++ b) p = true := by
  rw [strContains_iff] at h ⊢
  obtain ⟨s, t, hst⟩ := h
  exact ⟨s, t ++ b.data, by rw [String.data_append, ← hst]; simp⟩

theorem strContains_append_right (a b p : String) (h : strContains b p = true) :
    strContains (a ++ b) p = true := by
  rw [strContains_iff] at h ⊢
  obtain ⟨s, t, hst⟩ := h
  exact ⟨a.data ++ s, t, by rw [String.data_append, ← hst]; simp⟩

theorem strContains_middle (a p b : String) : strContains (a ++ p ++ b) p = true := by
  rw [strContains_iff]
  exact ⟨a.data, b.data, by simp [String.data_append]⟩

/-- Evaluation of the unknown-backend body: it depends only on which of
the two ids are registered, never on the configured URLs. -/
theorem unknownBackendBody_eval (env : Env) :
    unknownBackendBody (createRegistry env) =
      if bunConfigured env
      then "\x7b\"error\":\"Unknown backend\",\"available\":[\"hono-d1\",\"bun-sqlite\"]\x7d"
      else "\x7b\"error\":\"Unknown backend\",\"available\":[\"hono-d1\"]\x7d" := by
  obtain ⟨e, hurl, bopt⟩ := env
  cases bopt with
  | none => rfl
  | some u =>
      by_cases hu : u = ""
      · subst hu; rfl
      · have hd : (decide (u ≠ "") = true) := by simp [hu]
        simp only [bunConfigured, createRegistry, if_neg hu, if_pos hd]
        rfl

/-- Claim C2 (amended): a request whose x-backend header carries a
non-empty value that is not a registered id is answered with an HTTP 400
response whose body carries the fixed unknown-backend error message and
the list of all registered ids, and no outbound network call is issued;
the offending id itself is not echoed in the body, and an empty header
value is treated as absent (falling back to the default id) rather than
rejected. -/
theorem unknown_id_rejection (env : Env) (req : Request) (now : String)
    (oracle : FetchOutcome) (B : String) (hB : B ≠ "")
    (hp1 : req.pathname ≠ "/health") (hp2 : req.pathname ≠ "/backends")
    (hh : headerGet req.headers "x-backend" = some B)
    (hb : getBackend (createRegistry env) B = none) :
    route env req now oracle =
      Outcome.unknownBackend (jsonResponse 400 (unknownBackendBody (createRegistry env))) ∧
    (route env req now oracle).outbound = none ∧
    (appResponse env req now oracle).status = 400 ∧
    strContains (unknownBackendBody (createRegistry env)) "Unknown backend" = true ∧
    strContains (unknownBackendBody (createRegistry env)) "\"hono-d1\"" = true ∧
    (bunConfigured env = true →
      strContains (unknownBackendBody (createRegistry env)) "\"bun-sqlite\"" = true) := by
  have h1 : ¬(req.method = "GET" ∧ req.pathname = "/health") := fun h => hp1 h.2
  have h2 : ¬(req.method = "GET" ∧ req.pathname = "/backends") := fun h => hp2 h.2
  have hjs : jsOr (headerGet req.headers "x-backend") "hono-d1" = B := by
    rw [hh]; simp [jsOr, hB]
  have hroute : route env req now oracle =
      Outcome.unknownBackend (jsonResponse 400 (unknownBackendBody (createRegistry env))) := by
    rw [route_catchall env req now oracle h1 h2, hjs, hb]
  refine ⟨hroute, ?_, ?_, ?_, ?_, ?_⟩
  · rw [hroute]; rfl
  · rw [appResponse, hroute]; rfl
  · rw [unknownBackendBody_eval]
    cases hbc : bunConfigured env <;> simp <;> decide
  · rw [unknownBackendBody_eval]
    cases hbc : bunConfigured env <;> simp <;> decide
  · intro hbc
    rw [unknownBackendBody_eval, hbc]
    decide

/-- Witness for the amended C2 at a concrete unknown id. -/
theorem unknown_id_rejection_witness :
    route ⟨"local", "http://up1", none⟩
        ⟨"POST", "/tasks", "", [("x-backend", "does-not-exist")], none⟩
        "now" (.failure "boom") =
      Outcome.unknownBackend (jsonResponse 400
        (unknownBackendBody (createRegistry ⟨"local", "http://up1", none⟩))) :=
  (unknown_id_rejection ⟨"local", "http://up1", none⟩
    ⟨"POST", "/tasks", "", [("x-backend", "does-not-exist")], none⟩
    "now" (.failure "boom") "does-not-exist"
    (by decide) (by decide) (by decide) (by decide) (by decide)).1

/-- Counterexample to C2 as stated: at a concrete unknown id the router
does return 400, but the response body does not name the offending id. -/
theorem unknown_id_body_counterexample :
    (appResponse ⟨"local", "http://up1", none⟩
        ⟨"POST", "/tasks", "", [("x-backend", "does-not-exist")], none⟩
        "now" (.failure "boom")).status = 400 ∧
    strContains
      ((appResponse ⟨"local", "http://up1", none⟩
          ⟨"POST", "/tasks", "", [("x-backend", "does-not-exist")], none⟩
          "now" (.failure "boom")).body.getD "")
      "does-not-exist" = false := by
  constructor
  · rfl
  · decide

theorem strContains_refl (p : String) : strContains p p = true := by
  rw [strContains_iff]

theorem headerGet_setHeader_same (hs : List (String × String)) (nm v : String) :
    headerGet (setHeader hs nm v) nm = some v := by
  simp [headerGet, setHeader]

theorem headerGet_setHeader_ne (hs : List (String × String)) (nm v nm' : String)
    (h : nm' ≠ nm) :
    headerGet (setHeader hs nm v) nm' = headerGet hs nm' := by
  have hne : (nm == nm') = false := beq_eq_false_iff_ne.mpr (fun hc => h hc.symm)
  simp [headerGet, setHeader, List.find?_cons, hne]

/-- Claim C3: every response the router produces — proxy success, proxy
failure, unknown-backend rejection, health and backends — carries the
three fixed CORS headers with their configured values. -/
theorem cors_invariance (env : Env) (req : Request) (now : String) (oracle : FetchOutcome) :
    headerGet (appResponse env req now oracle).headers "Access-Control-Allow-Origin" =
      some "*" ∧
    headerGet (appResponse env req now oracle).headers "Access-Control-Allow-Methods" =
      some "GET, POST, PUT, PATCH, DELETE, OPTIONS" ∧
    headerGet (appResponse env req now oracle).headers "Access-Control-Allow-Headers" =
      some "Content-Type, x-backend, x-backend-location" := by
  refine ⟨?_, ?_, ?_⟩ <;> simp only [appResponse, applyCors]
  · rw [headerGet_setHeader_ne _ _ _ _ (by decide),
      headerGet_setHeader_ne _ _ _ _ (by decide), headerGet_setHeader_same]
  · rw [headerGet_setHeader_ne _ _ _ _ (by decide), headerGet_setHeader_same]
  · rw [headerGet_setHeader_same]

/-- Claim C4: when the single outbound call fails at the network level
(the fetch rejects: connection, DNS, TLS, or the abort signal firing at
the 30000 ms bound), the router returns one HTTP 503 response whose
JSON body names the failure reason, and the only outbound activity for
the request is the one forwarded call — no retry, no fail-over. -/
theorem upstream_down_503 (env : Env) (req : Request) (now msg : String) (b : Backend)
    (hp1 : req.pathname ≠ "/health") (hp2 : req.pathname ≠ "/backends")
    (hb : getBackend (createRegistry env)
        (jsOr (headerGet req.headers "x-backend") "hono-d1") = some b) :
    route env req now (.failure msg) =
      Outcome.proxied (buildOutbound req b) (proxyResponse (.failure msg)) ∧
    (appResponse env req now (.failure msg)).status = 503 ∧
    (appResponse env req now (.failure msg)).body = some (backendUnavailableBody msg) ∧
    strContains (backendUnavailableBody msg) (jsonEscape msg) = true ∧
    (buildOutbound req b).timeoutMs = 30000 ∧
    (route env req now (.failure msg)).outbound = some (buildOutbound req b) := by
  have h1 : ¬(req.method = "GET" ∧ req.pathname = "/health") := fun h => hp1 h.2
  have h2 : ¬(req.method = "GET" ∧ req.pathname = "/backends") := fun h => hp2 h.2
  have hroute : route env req now (.failure msg) =
      Outcome.proxied (buildOutbound req b) (proxyResponse (.failure msg)) := by
    rw [route_catchall env req now (.failure msg) h1 h2, hb]
  have hesc : strContains (jsonStr msg) (jsonEscape msg) = true := by
    rw [jsonStr]
    exact strContains_append_left _ _ _ (strContains_append_right _ _ _ (strContains_refl _))
  refine ⟨hroute, ?_, ?_, ?_, rfl, ?_⟩
  · rw [appResponse, hroute]; rfl
  · rw [appResponse, hroute]; rfl
  · rw [backendUnavailableBody]
    exact strContains_append_left _ _ _ (strContains_append_right _ _ _ hesc)
  · rw [hroute]; rfl

/-- Witness for C4: a concrete request forwarded to the default backend
whose fetch rejects. -/
theorem upstream_down_503_witness :
    (appResponse ⟨"local", "http://up1", none⟩ ⟨"POST", "/tasks", "", [], some "tb"⟩
      "now" (.failure "connect ECONNREFUSED")).status = 503 :=
  (upstream_down_503 ⟨"local", "http://up1", none⟩ ⟨"POST", "/tasks", "", [], some "tb"⟩
    "now" "connect ECONNREFUSED"
    ⟨"hono-d1", "Hono + D1 (Cloud)", "http://up1", "cloud", "/health"⟩
    (by decide) (by decide) (by decide)).2.1

/-- Claim C5: a request with no x-backend header whose path is neither
informational route resolves to the default id hono-d1 and is forwarded
to that descriptor's base url with the inbound path and query. -/
theorem default_routing (env : Env) (req : Request) (now : String) (oracle : FetchOutcome)
    (hp1 : req.pathname ≠ "/health") (hp2 : req.pathname ≠ "/backends")
    (hh : headerGet req.headers "x-backend" = none) :
    getBackend (createRegistry env) "hono-d1" = some (honoD1Backend env) ∧
    route env req now oracle =
      Outcome.proxied (buildOutbound req (honoD1Backend env)) (proxyResponse oracle) ∧
    (buildOutbound req (honoD1Backend env)).url =
      (honoD1Backend env).url ++ req.pathname ++ req.search := by
  have h1 : ¬(req.method = "GET" ∧ req.pathname = "/health") := fun h => hp1 h.2
  have h2 : ¬(req.method = "GET" ∧ req.pathname = "/backends") := fun h => hp2 h.2
  have hjs : jsOr (headerGet req.headers "x-backend") "hono-d1" = "hono-d1" := by
    rw [hh]
    rfl
  refine ⟨getBackend_honoD1 env, ?_, rfl⟩
  rw [route_catchall env req now oracle h1 h2, hjs, getBackend_honoD1]

/-- Witness for C5 at a concrete header-less request. -/
theorem default_routing_witness :
    route ⟨"local", "http://up1", none⟩ ⟨"GET", "/tasks", "?done=1", [], none⟩
        "now" (.success 200 "OK" "[]") =
      Outcome.proxied
        (buildOutbound ⟨"GET", "/tasks", "?done=1", [], none⟩
          (honoD1Backend ⟨"local", "http://up1", none⟩))
        (proxyResponse (.success 200 "OK" "[]")) :=
  (default_routing ⟨"local", "http://up1", none⟩ ⟨"GET", "/tasks", "?done=1", [], none⟩
    "now" (.success 200 "OK" "[]") (by decide) (by decide) (by decide)).2.1

theorem strContains_jsonStr (s : String) : strContains (jsonStr s) (jsonEscape s) = true := by
  rw [jsonStr]
  exact strContains_append_left _ _ _ (strContains_append_right _ _ _ (strContains_refl _))

/-- Evaluation of the outbound header construction as one append. -/
theorem outboundHeaders_eval (req : Request) :
    outboundHeaders req =
      [("Content-Type", "application/json"), ("Accept", "application/json"),
       ("x-forwarded-for", jsOr (headerGet req.headers "cf-connecting-ip") "unknown"),
       ("x-gateway-version", "1.0.0")] ++
      (match headerGet req.headers "x-backend" with
       | some v => if v = "" then [] else [("x-backend", v)]
       | none => []) := by
  rw [outboundHeaders]
  cases headerGet req.headers "x-backend" with
  | none => rfl
  | some v =>
      by_cases hv : v = "" <;> simp [hv]

/-- Counterexample to C6 as stated: at a concrete request the outbound
Content-Type is the fixed application/json although the inbound request
carried text/plain, and the inbound x-backend header, present with an
empty value, is not included in the outbound headers. -/
theorem outbound_headers_counterexample :
    (route ⟨"local", "http://up1", none⟩
        ⟨"POST", "/tasks", "", [("content-type", "text/plain"), ("x-backend", "")], some "bd"⟩
        "now" (.success 200 "OK" "r")).outbound =
      some (buildOutbound
        ⟨"POST", "/tasks", "", [("content-type", "text/plain"), ("x-backend", "")], some "bd"⟩
        (honoD1Backend ⟨"local", "http://up1", none⟩)) ∧
    headerGet (outboundHeaders
        ⟨"POST", "/tasks", "", [("content-type", "text/plain"), ("x-backend", "")], some "bd"⟩)
      "Content-Type" = some "application/json" ∧
    headerGet [("content-type", "text/plain"), ("x-backend", "")] "content-type" =
      some "text/plain" ∧
    headerGet (outboundHeaders
        ⟨"POST", "/tasks", "", [("content-type", "text/plain"), ("x-backend", "")], some "bd"⟩)
      "x-backend" = none ∧
    headerGet [("content-type", "text/plain"), ("x-backend", "")] "x-backend" = some "" := by
  refine ⟨?_, ?_, ?_, ?_, ?_⟩ <;> rfl

/-- Claim C6 (amended): for every forwarded request the outbound headers
set Content-Type and Accept to the fixed value application/json
(regardless of the inbound values), set x-forwarded-for to the inbound
cf-connecting-ip value (falling back to the marker unknown when that
header is absent or empty), set x-gateway-version to 1.0.0, and include
the inbound x-backend selector exactly when it is present with a
non-empty value. -/
theorem outbound_headers_spec (req : Request) :
    headerGet (outboundHeaders req) "Content-Type" = some "application/json" ∧
    headerGet (outboundHeaders req) "Accept" = some "application/json" ∧
    headerGet (outboundHeaders req) "x-forwarded-for" =
      some (jsOr (headerGet req.headers "cf-connecting-ip") "unknown") ∧
    headerGet (outboundHeaders req) "x-gateway-version" = some "1.0.0" ∧
    (∀ v, headerGet req.headers "x-backend" = some v → v ≠ "" →
      headerGet (outboundHeaders req) "x-backend" = some v) ∧
    (headerGet req.headers "x-backend" = none →
      headerGet (outboundHeaders req) "x-backend" = none) := by
  rw [outboundHeaders_eval]
  cases hx : headerGet req.headers "x-backend" with
  | none =>
      refine ⟨rfl, rfl, rfl, rfl, ?_, fun _ => rfl⟩
      intro v hv
      exact absurd hv (by simp)
  | some v0 =>
      by_cases hv0 : v0 = ""
      · subst hv0
        refine ⟨rfl, rfl, rfl, rfl, ?_, ?_⟩
        · intro v hv hne
          injection hv with hv
          exact absurd hv.symm hne
        · intro hcon
          exact Option.noConfusion hcon
      · refine ⟨?_, ?_, ?_, ?_, ?_, ?_⟩
        · simp [headerGet, List.find?_cons, hv0]
        · simp [headerGet, List.find?_cons, hv0]
        · simp [headerGet, List.find?_cons, hv0]
        · simp [headerGet, List.find?_cons, hv0]
        · intro v hv _
          injection hv with hv
          subst hv
          simp [headerGet, List.find?_cons, hv0]
        · intro hcon
          exact Option.noConfusion hcon

/-- Witness for the amended C6 at a concrete request carrying a
non-empty selector. -/
theorem outbound_headers_spec_witness :
    headerGet (outboundHeaders
        ⟨"POST", "/tasks", "", [("x-backend", "bun-sqlite")], some "bd"⟩) "x-backend" =
      some "bun-sqlite" :=
  (outbound_headers_spec
    ⟨"POST", "/tasks", "", [("x-backend", "bun-sqlite")], some "bd"⟩).2.2.2.2.1
    "bun-sqlite" (by decide) (by decide)

/-- Evaluation of the registered ids: only the two known ids can occur,
and bun-sqlite occurs exactly when its URL is configured non-empty. -/
theorem registry_ids (env : Env) :
    (createRegistry env).map Backend.id =
      if bunConfigured env then ["hono-d1", "bun-sqlite"] else ["hono-d1"] := by
  obtain ⟨e, hurl, bopt⟩ := env
  cases bopt with
  | none => rfl
  | some u =>
      by_cases hu : u = ""
      · subst hu; rfl
      · have hd : (decide (u ≠ "") = true) := by simp [hu]
        simp only [bunConfigured, createRegistry, if_neg hu, if_pos hd]
        rfl

/-- Counterexample to C7 as stated: in the environment whose
BACKEND_HONO_D1_URL is the empty string, the id hono-d1 has
absent/empty configuration yet still appears in the listing. -/
theorem backends_listing_counterexample :
    (Env.mk "local" "" none).BACKEND_HONO_D1_URL = "" ∧
    "hono-d1" ∈ (listBackends (createRegistry (Env.mk "local" "" none))).map Backend.id := by
  refine ⟨rfl, ?_⟩
  decide

/-- Claim C7 (amended): GET /backends returns the registry serialized
from configuration; the default id hono-d1 appears exactly once in
every configuration (its descriptor falling back to a hardcoded URL
when the configured value is empty), bun-sqlite appears exactly once
when its URL is configured non-empty and not at all otherwise, and no
other id ever appears, so at least one descriptor is always present. -/
theorem backends_listing (env : Env) (req : Request) (now : String) (oracle : FetchOutcome)
    (hm : req.method = "GET") (hp : req.pathname = "/backends") :
    route env req now oracle =
      Outcome.backends (jsonResponse 200 (backendsBody (createRegistry env))) ∧
    ((listBackends (createRegistry env)).map Backend.id).count "hono-d1" = 1 ∧
    ((listBackends (createRegistry env)).map Backend.id).count "bun-sqlite" =
      (if bunConfigured env then 1 else 0) ∧
    (∀ i, i ≠ "hono-d1" → i ≠ "bun-sqlite" →
      ((listBackends (createRegistry env)).map Backend.id).count i = 0) := by
  have h1 : ¬(req.method = "GET" ∧ req.pathname = "/health") := by
    rw [hp]
    exact fun hc => absurd hc.2 (by decide)
  refine ⟨?_, ?_, ?_, ?_⟩
  · simp only [route, if_neg h1, if_pos (And.intro hm hp)]
  · rw [listBackends, registry_ids]
    cases bunConfigured env <;> simp
  · rw [listBackends, registry_ids]
    cases bunConfigured env <;> simp
  · intro i hi1 hi2
    rw [listBackends, registry_ids]
    cases bunConfigured env <;> simp [List.count_eq_zero, hi1, hi2]

/-- Witness for the amended C7 at a concrete configuration. -/
theorem backends_listing_witness :
    route ⟨"local", "http://up1", some "http://up2"⟩ ⟨"GET", "/backends", "", [], none⟩
        "now" (.success 200 "OK" "r") =
      Outcome.backends (jsonResponse 200
        (backendsBody (createRegistry ⟨"local", "http://up1", some "http://up2"⟩))) :=
  (backends_listing ⟨"local", "http://up1", some "http://up2"⟩
    ⟨"GET", "/backends", "", [], none⟩ "now" (.success 200 "OK" "r")
    (by decide) (by decide)).1

/-- Claim C8: GET /health returns 200 with the ok status marker and the
timestamp string in the body, issues no outbound call, and performs no
registry resolution: any two environments that agree on ENVIRONMENT
yield the very same outcome, whatever their backend URLs. -/
theorem health_isolation (env : Env) (req : Request) (now : String) (oracle : FetchOutcome)
    (hm : req.method = "GET") (hp : req.pathname = "/health") :
    route env req now oracle = Outcome.health (jsonResponse 200 (healthBody env now)) ∧
    (route env req now oracle).outbound = none ∧
    (appResponse env req now oracle).status = 200 ∧
    strContains (healthBody env now) "\"status\":\"ok\"" = true ∧
    strContains (healthBody env now) (jsonEscape now) = true ∧
    (∀ env2 : Env, env2.ENVIRONMENT = env.ENVIRONMENT →
      route env2 req now oracle = route env req now oracle) := by
  have hroute : ∀ e : Env, route e req now oracle =
      Outcome.health (jsonResponse 200 (healthBody e now)) := by
    intro e
    simp only [route, if_pos (And.intro hm hp)]
  refine ⟨hroute env, ?_, ?_, ?_, ?_, ?_⟩
  · rw [hroute env]; rfl
  · rw [appResponse, hroute env]; rfl
  · rw [healthBody]
    exact strContains_append_left _ _ _ (strContains_append_left _ _ _
      (strContains_append_left _ _ _ (strContains_append_left _ _ _ (by decide))))
  · rw [healthBody]
    exact strContains_append_left _ _ _ (strContains_append_left _ _ _
      (strContains_append_left _ _ _
        (strContains_append_right _ _ _ (strContains_jsonStr now))))
  · intro env2 he
    rw [hroute env2, hroute env, healthBody, healthBody, he]

/-- Witness for C8 at a concrete health request. -/
theorem health_isolation_witness :
    (appResponse ⟨"cloud", "http://up1", none⟩ ⟨"GET", "/health", "", [], none⟩
      "2026-01-01T00:00:00.000Z" (.failure "boom")).status = 200 :=
  (health_isolation ⟨"cloud", "http://up1", none⟩ ⟨"GET", "/health", "", [], none⟩
    "2026-01-01T00:00:00.000Z" (.failure "boom") (by decide) (by decide)).2.2.1

/-- Claim C9: registry construction is a pure function of the
environment, so the source's per-request construction is observationally
equivalent to a registry constructed once and reused: the dispatch
against the pre-built registry agrees with the per-request dispatch on
every request, and over any sequence of requests served under a fixed
environment. -/
theorem registry_once_refinement :
    (∀ (env : Env) (req : Request) (now : String) (oracle : FetchOutcome),
      route env req now oracle = routeOnce (createRegistry env) env req now oracle) ∧
    (∀ (env : Env) (reqs : List (Request × String × FetchOutcome)),
      reqs.map (fun t => route env t.1 t.2.1 t.2.2) =
        reqs.map (fun t => routeOnce (createRegistry env) env t.1 t.2.1 t.2.2)) := by
  constructor
  · intro env req now oracle
    rfl
  · intro env reqs
    rfl

/-- Claim C10: the default id hono-d1 is registered in every
environment — with the hardcoded fallback URL when the configured one is
empty — so a request that carries no x-backend header can never reach
the 400 unknown-backend branch. -/
theorem default_backend_present :
    (∀ env : Env, ∃ b, getBackend (createRegistry env) "hono-d1" = some b) ∧
    (∀ env : Env, env.BACKEND_HONO_D1_URL = "" →
      getBackend (createRegistry env) "hono-d1" =
        some { id := "hono-d1", name := "Hono + D1 (Cloud)", url := defaultHonoD1Url,
               type := "cloud", healthEndpoint := "/health" }) ∧
    (∀ (env : Env) (req : Request) (now : String) (oracle : FetchOutcome),
      headerGet req.headers "x-backend" = none →
      ∀ r, route env req now oracle ≠ Outcome.unknownBackend r) := by
  refine ⟨fun env => ⟨honoD1Backend env, getBackend_honoD1 env⟩, ?_, ?_⟩
  · intro env h
    rw [getBackend_honoD1]
    simp [honoD1Backend, h]
  · intro env req now oracle hh r
    by_cases h1 : req.method = "GET" ∧ req.pathname = "/health"
    · simp [route, if_pos h1]
    · by_cases h2 : req.method = "GET" ∧ req.pathname = "/backends"
      · simp [route, h1, h2]
      · have hjs : jsOr (headerGet req.headers "x-backend") "hono-d1" = "hono-d1" := by
          rw [hh]; rfl
        rw [route_catchall env req now oracle h1 h2, hjs, getBackend_honoD1]
        simp

/-- Witness for C10: a concrete header-less request in the environment
with an empty default URL is not rejected. -/
theorem default_backend_present_witness :
    route ⟨"local", "", none⟩ ⟨"POST", "/tasks", "", [], none⟩ "now"
        (.success 200 "OK" "r") ≠
      Outcome.unknownBackend (jsonResponse 400 "") :=
  default_backend_present.2.2 ⟨"local", "", none⟩ ⟨"POST", "/tasks", "", [], none⟩
    "now" (.success 200 "OK" "r") (by decide) (jsonResponse 400 "")

end Gateway
